import Mathlib

set_option maxRecDepth 65536
set_option maxHeartbeats 2000000

/-!
Verification of the payment-method module of `eb_interface_rs`
(`src/payment_method.rs`): a shallow embedding of the validated builder
records (`PaymentMethodSEPADirectDebit`, beneficiary accounts, universal
bank transactions, payment cards, the `PaymentMethod` wrapper) and of
their XML rendering, together with theorems settling the specification
claims about field validation and rendering.

Rust `&str` values are modelled as Lean `String`; Rust `str::len()` is the
UTF-8 byte count, modelled as `String.utf8ByteSize`, while the number of
characters is `String.length`.  Fallible setters (`Result<Self, String>`)
are modelled as `Except String`.
-/

/-- Modelled from the spec: the markup primitive (`XmlElement` / `ToXml`
from `crate::xml`) is not under `src/`.  Per the spec it is a tree node
with a tag name, optional text content, an ordered set of named
attributes and an ordered sequence of child nodes, with a single render
operation producing markup text with no declaration and no indentation
and no escaping.  Attributes and child nodes are modelled by the markup
text they contribute, kept in insertion order by appending; `with_element`
takes a child's rendering (the Rust version takes any `impl ToXml`),
which is observationally equivalent under the render contract. -/
structure XmlElement where
  name : String
  text : Option String
  attrs : String
  children : String

def XmlElement.new (name : String) : XmlElement :=
  ⟨name, none, "", ""⟩

def XmlElement.with_text (e : XmlElement) (t : String) : XmlElement :=
  { e with text := some t }

def XmlElement.with_attr (e : XmlElement) (key value : String) : XmlElement :=
  { e with attrs := e.attrs ++ " " ++ key ++ "=\x22" ++ value ++ "\x22" }

def XmlElement.with_element (e : XmlElement) (child : String) : XmlElement :=
  { e with children := e.children ++ child }

def XmlElement.to_xml (e : XmlElement) : String :=
  "<" ++ e.name ++ e.attrs ++ ">" ++ e.text.getD "" ++ e.children ++ "</" ++ e.name ++ ">"

def XmlElement.with_text_element (e : XmlElement) (tag t : String) : XmlElement :=
  e.with_element (((XmlElement.new tag).with_text t).to_xml)

/-- `BIC_REGEX_STR` from the source (braces written as escapes). -/
def BIC_REGEX_STR : String := "^[0-9A-Za-z]\x7b8\x7d([0-9A-Za-z]\x7b3\x7d)?$"

/-- `MatchBicRegex::match_bic_regex`: decides the anchored regex
`^[0-9A-Za-z]{8}([0-9A-Za-z]{3})?$`, i.e. exactly 8 or 11 ASCII
alphanumeric characters.  Shared by both `with_bic` setters, as in the
source (a default trait method). -/
def match_bic_regex (bic : String) : Bool :=
  (bic.length == 8 || bic.length == 11) && bic.data.all Char.isAlphanum

structure PaymentMethodSEPADirectDebit where
  direct_debit_type : Option String
  bic : Option String
  iban : Option String
  bank_account_owner : Option String
  creditor_id : Option String
  mandate_reference : Option String
  debit_collection_date : Option String

/-- `#[derive(Default)]` for `PaymentMethodSEPADirectDebit`. -/
def PaymentMethodSEPADirectDebit.default : PaymentMethodSEPADirectDebit :=
  ⟨none, none, none, none, none, none, none⟩

def PaymentMethodSEPADirectDebit.new : PaymentMethodSEPADirectDebit :=
  PaymentMethodSEPADirectDebit.default

def PaymentMethodSEPADirectDebit.with_direct_debit_type
    (self : PaymentMethodSEPADirectDebit) (direct_debit_type : String) :
    PaymentMethodSEPADirectDebit :=
  { self with direct_debit_type := some direct_debit_type }

def PaymentMethodSEPADirectDebit.with_bic
    (self : PaymentMethodSEPADirectDebit) (bic : String) :
    Except String PaymentMethodSEPADirectDebit :=
  if !match_bic_regex bic then
    .error ("BIC " ++ bic ++ " doesn\x27t match regex " ++ BIC_REGEX_STR ++ "!")
  else
    .ok { self with bic := some bic }

def PaymentMethodSEPADirectDebit.with_iban
    (self : PaymentMethodSEPADirectDebit) (iban : String) :
    Except String PaymentMethodSEPADirectDebit :=
  if iban.utf8ByteSize > 34 then
    .error ("IBAN " ++ iban ++ " is too long!")
  else
    .ok { self with iban := some iban }

def PaymentMethodSEPADirectDebit.with_bank_account_owner
    (self : PaymentMethodSEPADirectDebit) (bank_account_owner : String) :
    Except String PaymentMethodSEPADirectDebit :=
  if bank_account_owner.utf8ByteSize > 70 then
    .error ("BankAccountOwner " ++ bank_account_owner ++ " is too long!")
  else
    .ok { self with bank_account_owner := some bank_account_owner }

def PaymentMethodSEPADirectDebit.with_creditor_id
    (self : PaymentMethodSEPADirectDebit) (creditor_id : String) :
    Except String PaymentMethodSEPADirectDebit :=
  if creditor_id.utf8ByteSize > 35 then
    .error ("CreditorID " ++ creditor_id ++ " is too long!")
  else
    .ok { self with creditor_id := some creditor_id }

def PaymentMethodSEPADirectDebit.with_mandate_reference
    (self : PaymentMethodSEPADirectDebit) (mandate_reference : String) :
    Except String PaymentMethodSEPADirectDebit :=
  if mandate_reference.utf8ByteSize > 35 then
    .error ("MandateReference " ++ mandate_reference ++ " is too long!")
  else
    .ok { self with mandate_reference := some mandate_reference }

/-- `DATE_REGEX_STR` from the source (braces written as escapes). -/
def DATE_REGEX_STR : String := "^[0-9]\x7b4\x7d-[0-9]\x7b2\x7d-[0-9]\x7b2\x7d$"

/-- Decides the anchored regex `^[0-9]{4}-[0-9]{2}-[0-9]{2}$`. -/
def match_date_regex (s : String) : Bool :=
  match s.data with
  | [y1, y2, y3, y4, h1, m1, m2, h2, d1, d2] =>
    y1.isDigit && y2.isDigit && y3.isDigit && y4.isDigit && h1 == '-' &&
      m1.isDigit && m2.isDigit && h2 == '-' && d1.isDigit && d2.isDigit
  | _ => false

def PaymentMethodSEPADirectDebit.with_debit_collection_date
    (self : PaymentMethodSEPADirectDebit) (debit_collection_date : String) :
    Except String PaymentMethodSEPADirectDebit :=
  if !match_date_regex debit_collection_date then
    .error ("DebitCollectionDate " ++ debit_collection_date ++
      " doesn\x27t match regex " ++ DATE_REGEX_STR ++ "!")
  else
    .ok { self with debit_collection_date := some debit_collection_date }

def PaymentMethodSEPADirectDebit.to_xml (self : PaymentMethodSEPADirectDebit) : String :=
  let e := XmlElement.new "SEPADirectDebit"
  let e := e.with_text_element "Type" (self.direct_debit_type.getD "B2C")
  let e := match self.bic with
    | some bic => e.with_text_element "BIC" bic
    | none => e
  let e := match self.iban with
    | some iban => e.with_text_element "IBAN" iban
    | none => e
  let e := match self.bank_account_owner with
    | some bank_account_owner => e.with_text_element "BankAccountOwner" bank_account_owner
    | none => e
  let e := match self.creditor_id with
    | some creditor_id => e.with_text_element "CreditorID" creditor_id
    | none => e
  let e := match self.mandate_reference with
    | some mandate_reference => e.with_text_element "MandateReference" mandate_reference
    | none => e
  let e := match self.debit_collection_date with
    | some debit_collection_date => e.with_text_element "DebitCollectionDate" debit_collection_date
    | none => e
  e.to_xml

/-- `bank_code` is an `i64` in the source; its value is never validated,
only rendered with `format!`, so it is modelled as `Int`. -/
structure PaymentMethodUniversalBankTransactionBeneficiaryAccountBankCode where
  bank_code : Int
  bank_code_type : String

def PaymentMethodUniversalBankTransactionBeneficiaryAccountBankCode.new
    (bank_code : Int) (bank_code_type : String) :
    PaymentMethodUniversalBankTransactionBeneficiaryAccountBankCode :=
  ⟨bank_code, bank_code_type⟩

structure PaymentMethodUniversalBankTransactionBeneficiaryAccount where
  bank_name : Option String
  bank_code : Option PaymentMethodUniversalBankTransactionBeneficiaryAccountBankCode
  bic : Option String
  bank_account_number : Option String
  iban : Option String
  bank_account_owner : Option String

/-- `#[derive(Default)]` for the beneficiary account. -/
def PaymentMethodUniversalBankTransactionBeneficiaryAccount.default :
    PaymentMethodUniversalBankTransactionBeneficiaryAccount :=
  ⟨none, none, none, none, none, none⟩

def PaymentMethodUniversalBankTransactionBeneficiaryAccount.new :
    PaymentMethodUniversalBankTransactionBeneficiaryAccount :=
  PaymentMethodUniversalBankTransactionBeneficiaryAccount.default

def PaymentMethodUniversalBankTransactionBeneficiaryAccount.with_bank_name
    (self : PaymentMethodUniversalBankTransactionBeneficiaryAccount) (bank_name : String) :
    Except String PaymentMethodUniversalBankTransactionBeneficiaryAccount :=
  if bank_name.utf8ByteSize > 255 then
    .error ("BankName " ++ bank_name ++ " is too long!")
  else
    .ok { self with bank_name := some bank_name }

def PaymentMethodUniversalBankTransactionBeneficiaryAccount.with_bank_code
    (self : PaymentMethodUniversalBankTransactionBeneficiaryAccount)
    (bank_code : PaymentMethodUniversalBankTransactionBeneficiaryAccountBankCode) :
    Except String PaymentMethodUniversalBankTransactionBeneficiaryAccount :=
  if bank_code.bank_code_type.utf8ByteSize ≠ 2 then
    .error ("BankCodeType " ++ bank_code.bank_code_type ++ " is not 2 characters long!")
  else
    .ok { self with bank_code := some bank_code }

def PaymentMethodUniversalBankTransactionBeneficiaryAccount.with_bic
    (self : PaymentMethodUniversalBankTransactionBeneficiaryAccount) (bic : String) :
    Except String PaymentMethodUniversalBankTransactionBeneficiaryAccount :=
  if !match_bic_regex bic then
    .error ("BIC " ++ bic ++ " doesn\x27t match regex " ++ BIC_REGEX_STR ++ "!")
  else
    .ok { self with bic := some bic }

def PaymentMethodUniversalBankTransactionBeneficiaryAccount.with_bank_account_number
    (self : PaymentMethodUniversalBankTransactionBeneficiaryAccount)
    (bank_account_number : String) :
    PaymentMethodUniversalBankTransactionBeneficiaryAccount :=
  { self with bank_account_number := some bank_account_number }

def PaymentMethodUniversalBankTransactionBeneficiaryAccount.with_iban
    (self : PaymentMethodUniversalBankTransactionBeneficiaryAccount) (iban : String) :
    Except String PaymentMethodUniversalBankTransactionBeneficiaryAccount :=
  if iban.utf8ByteSize > 34 then
    .error ("IBAN " ++ iban ++ " is too long!")
  else
    .ok { self with iban := some iban }

def PaymentMethodUniversalBankTransactionBeneficiaryAccount.with_bank_account_owner
    (self : PaymentMethodUniversalBankTransactionBeneficiaryAccount)
    (bank_account_owner : String) :
    Except String PaymentMethodUniversalBankTransactionBeneficiaryAccount :=
  if bank_account_owner.utf8ByteSize > 70 then
    .error ("BankAccountOwner " ++ bank_account_owner ++ " is too long!")
  else
    .ok { self with bank_account_owner := some bank_account_owner }

def PaymentMethodUniversalBankTransactionBeneficiaryAccount.to_xml
    (self : PaymentMethodUniversalBankTransactionBeneficiaryAccount) : String :=
  let e := XmlElement.new "BeneficiaryAccount"
  let e := match self.bank_name with
    | some bank_name => e.with_text_element "BankName" bank_name
    | none => e
  let e := match self.bank_code with
    | some bank_code =>
      e.with_element
        (((XmlElement.new "BankCode").with_text (toString bank_code.bank_code)).with_attr
          "BankCodeType" bank_code.bank_code_type).to_xml
    | none => e
  let e := match self.bic with
    | some bic => e.with_text_element "BIC" bic
    | none => e
  let e := match self.bank_account_number with
    | some bank_account_number => e.with_text_element "BankAccountNr" bank_account_number
    | none => e
  let e := match self.iban with
    | some iban => e.with_text_element "IBAN" iban
    | none => e
  let e := match self.bank_account_owner with
    | some bank_account_owner => e.with_text_element "BankAccountOwner" bank_account_owner
    | none => e
  e.to_xml

structure PaymentMethodUniversalBankTransaction where
  consolidator_payable : Option Bool
  beneficiary_account : Option (List PaymentMethodUniversalBankTransactionBeneficiaryAccount)
  payment_reference : Option String
  payment_reference_checksum : Option String

/-- `#[derive(Default)]` for the universal bank transaction. -/
def PaymentMethodUniversalBankTransaction.default : PaymentMethodUniversalBankTransaction :=
  ⟨none, none, none, none⟩

def PaymentMethodUniversalBankTransaction.new : PaymentMethodUniversalBankTransaction :=
  PaymentMethodUniversalBankTransaction.default

def PaymentMethodUniversalBankTransaction.with_consolidator_payable
    (self : PaymentMethodUniversalBankTransaction) (consolidator_payable : Bool) :
    PaymentMethodUniversalBankTransaction :=
  { self with consolidator_payable := some consolidator_payable }

/-- `get_or_insert_with(Vec::new).push(..)`: append to the list, starting
from the empty list when the field is still `None`. -/
def PaymentMethodUniversalBankTransaction.with_beneficiary_account
    (self : PaymentMethodUniversalBankTransaction)
    (beneficiary_account : PaymentMethodUniversalBankTransactionBeneficiaryAccount) :
    PaymentMethodUniversalBankTransaction :=
  { self with beneficiary_account := some (self.beneficiary_account.getD [] ++ [beneficiary_account]) }

def PaymentMethodUniversalBankTransaction.with_payment_reference
    (self : PaymentMethodUniversalBankTransaction) (payment_reference : String) :
    Except String PaymentMethodUniversalBankTransaction :=
  if payment_reference.utf8ByteSize > 35 then
    .error ("PaymentReference " ++ payment_reference ++ " is too long!")
  else
    .ok { self with payment_reference := some payment_reference }

def PaymentMethodUniversalBankTransaction.with_payment_reference_checksum
    (self : PaymentMethodUniversalBankTransaction) (payment_reference_checksum : String) :
    PaymentMethodUniversalBankTransaction :=
  { self with payment_reference_checksum := some payment_reference_checksum }

def PaymentMethodUniversalBankTransaction.to_xml
    (self : PaymentMethodUniversalBankTransaction) : String :=
  let e := XmlElement.new "UniversalBankTransaction"
  let e := e.with_attr "ConsolidatorPayable" (toString (self.consolidator_payable.getD false))
  let e := match self.beneficiary_account with
    | some accounts =>
      accounts.foldl
        (fun (x : XmlElement) (account : PaymentMethodUniversalBankTransactionBeneficiaryAccount) =>
          x.with_element account.to_xml) e
    | none => e
  let e := match self.payment_reference with
    | some payment_reference =>
      let p := (XmlElement.new "PaymentReference").with_text payment_reference
      let p := match self.payment_reference_checksum with
        | some payment_reference_checksum => p.with_attr "CheckSum" payment_reference_checksum
        | none => p
      e.with_element p.to_xml
    | none => e
  e.to_xml

/-- Decides the anchored regex `^[0-9]{0,6}\*[0-9]{0,4}$`: up to 6 digits,
one literal asterisk, up to 4 digits. -/
def match_payment_card_regex (s : String) : Bool :=
  let pre := s.data.takeWhile Char.isDigit
  match s.data.dropWhile Char.isDigit with
  | star :: post =>
    star == '*' && pre.length ≤ 6 && post.length ≤ 4 && post.all Char.isDigit
  | [] => false

structure PaymentMethodPaymentCard where
  primary_account_number : String
  card_holder_name : Option String

def PaymentMethodPaymentCard.new (primary_account_number : String) :
    Except String PaymentMethodPaymentCard :=
  if !match_payment_card_regex primary_account_number then
    .error ("Invalid primary account number \x22" ++ primary_account_number ++
      "\x22. Only provide at most the first 6 and last 4 digits, separated with a \x22*\x22.")
  else
    .ok ⟨primary_account_number, none⟩

def PaymentMethodPaymentCard.with_card_holder_name
    (self : PaymentMethodPaymentCard) (card_holder_name : String) :
    PaymentMethodPaymentCard :=
  { self with card_holder_name := some card_holder_name }

def PaymentMethodPaymentCard.to_xml (self : PaymentMethodPaymentCard) : String :=
  let e := XmlElement.new "PaymentCard"
  let e := e.with_text_element "PrimaryAccountNumber" self.primary_account_number
  let e := match self.card_holder_name with
    | some card_holder_name => e.with_text_element "CardHolderName" card_holder_name
    | none => e
  e.to_xml

inductive PaymentMethodType where
  | NoPayment
  | SEPADirectDebit (p : PaymentMethodSEPADirectDebit)
  | UniversalBankTransactionBeneficiaryAccount
      (p : PaymentMethodUniversalBankTransactionBeneficiaryAccount)
  | UniversalBankTransaction (p : PaymentMethodUniversalBankTransaction)
  | PaymentCard (p : PaymentMethodPaymentCard)
  | OtherPayment

def PaymentMethodType.to_xml : PaymentMethodType → String
  | .NoPayment => (XmlElement.new "NoPayment").to_xml
  | .SEPADirectDebit p => p.to_xml
  | .UniversalBankTransactionBeneficiaryAccount p => p.to_xml
  | .UniversalBankTransaction p => p.to_xml
  | .PaymentCard p => p.to_xml
  | .OtherPayment => (XmlElement.new "OtherPayment").to_xml

structure PaymentMethod where
  comment : Option String
  method : PaymentMethodType

/-- `#[derive(Default)]`: the default `PaymentMethodType` is `NoPayment`. -/
def PaymentMethod.default : PaymentMethod :=
  ⟨none, .NoPayment⟩

def PaymentMethod.no_payment : PaymentMethod :=
  { PaymentMethod.default with method := .NoPayment }

def PaymentMethod.sepa_direct_debit (p : PaymentMethodSEPADirectDebit) : PaymentMethod :=
  { PaymentMethod.default with method := .SEPADirectDebit p }

def PaymentMethod.universal_bank_transaction
    (p : PaymentMethodUniversalBankTransaction) : PaymentMethod :=
  { PaymentMethod.default with method := .UniversalBankTransaction p }

def PaymentMethod.universal_bank_transaction_beneficiary_account
    (p : PaymentMethodUniversalBankTransactionBeneficiaryAccount) : PaymentMethod :=
  { PaymentMethod.default with method := .UniversalBankTransactionBeneficiaryAccount p }

def PaymentMethod.payment_card (p : PaymentMethodPaymentCard) : PaymentMethod :=
  { PaymentMethod.default with method := .PaymentCard p }

def PaymentMethod.other_payment : PaymentMethod :=
  { PaymentMethod.default with method := .OtherPayment }

def PaymentMethod.with_comment (self : PaymentMethod) (comment : String) : PaymentMethod :=
  { self with comment := some comment }

def PaymentMethod.to_xml (self : PaymentMethod) : String :=
  let e := XmlElement.new "PaymentMethod"
  let e := match self.comment with
    | some comment => e.with_text_element "Comment" comment
    | none => e
  let e := e.with_element self.method.to_xml
  e.to_xml

/-! Observers used to state the claims. -/

/-- Markup text of a text element: `<tag>` then the text then `</tag>`. -/
def textElement (tag t : String) : String :=
  "<" ++ tag ++ ">" ++ t ++ "</" ++ tag ++ ">"

/-- Markup contributed by an optional text field: nothing at all when the
field is unset (no empty placeholder element). -/
def optTextElement (tag : String) : Option String → String
  | some t => textElement tag t
  | none => ""

/-- Markup contributed by the optional bank-code field of a beneficiary
account: a `BankCode` element carrying the integer value as text and the
code type as the `BankCodeType` attribute. -/
def bankCodeFragment :
    Option PaymentMethodUniversalBankTransactionBeneficiaryAccountBankCode → String
  | some bc =>
    "<BankCode BankCodeType=\x22" ++ bc.bank_code_type ++ "\x22>" ++
      toString bc.bank_code ++ "</BankCode>"
  | none => ""

/-- Markup contributed by the payment reference and its checksum: nothing
when no payment reference is set (even if a checksum is set); otherwise a
`PaymentReference` text element carrying a `CheckSum` attribute exactly
when a checksum is set. -/
def paymentReferenceFragment (pr cs : Option String) : String :=
  match pr with
  | none => ""
  | some r =>
    "<PaymentReference" ++
      (match cs with
       | none => ""
       | some c => " CheckSum=\x22" ++ c ++ "\x22") ++ ">" ++ r ++ "</PaymentReference>"

/-- Concatenation of a list of markup fragments, in order. -/
def joinParts : List String → String
  | [] => ""
  | s :: rest => s ++ joinParts rest

/-- `mentions m v`: the string `v` occurs verbatim as a contiguous
substring of `m`. -/
def mentions (m v : String) : Prop :=
  ∃ pre post : List Char, m.data = pre ++ v.data ++ post

/-- The masked-PAN shape of the spec, stated directly: the characters are
0 to 6 digits, one literal asterisk, then 0 to 4 digits. -/
def panShapeSpec (s : String) : Prop :=
  ∃ a b : List Char, s.data = a ++ '*' :: b ∧ a.length ≤ 6 ∧ b.length ≤ 4 ∧
    a.all Char.isDigit = true ∧ b.all Char.isDigit = true

/-- The date shape of the spec, stated directly: exactly ten characters,
four digits, a hyphen, two digits, a hyphen, two digits. -/
def dateShapeSpec (s : String) : Prop :=
  ∃ y1 y2 y3 y4 m1 m2 d1 d2 : Char,
    s.data = [y1, y2, y3, y4, '-', m1, m2, '-', d1, d2] ∧
    [y1, y2, y3, y4, m1, m2, d1, d2].all Char.isDigit = true

/-- The BIC shape of the spec, stated directly: 8 or 11 characters, each
an ASCII digit, uppercase letter or lowercase letter (the class
`[0-9A-Za-z]`, given by the scalar-value ranges 48-57, 65-90, 97-122). -/
def bicShapeSpec (s : String) : Prop :=
  (s.length = 8 ∨ s.length = 11) ∧
    ∀ c ∈ s.data, (48 ≤ c.toNat ∧ c.toNat ≤ 57) ∨ (65 ≤ c.toNat ∧ c.toNat ≤ 90) ∨
      (97 ≤ c.toNat ∧ c.toNat ≤ 122)

/-- Contract of a fallible setter or constructor: on failure the error
message mentions the field's name and the rejected value and no record is
produced at all; on success the result satisfies `good` (here always: it
is the input record with exactly the one field set). -/
def setterContract {α : Type} (result : Except String α)
    (fieldName value : String) (good : α → Prop) : Prop :=
  match result with
  | .error m => mentions m fieldName ∧ mentions m value
  | .ok r => good r

/-! Helper lemmas. -/

theorem mentions_refl (v : String) : mentions v v :=
  ⟨[], [], by simp⟩

theorem mentions_concat (p v q : String) : mentions (p ++ v ++ q) v :=
  ⟨p.data, q.data, by simp [String.data_append]⟩

theorem mentions_append_left (t m v : String) (h : mentions m v) : mentions (t ++ m) v := by
  obtain ⟨pre, post, hd⟩ := h
  exact ⟨t.data ++ pre, post, by simp [String.data_append, hd]⟩

theorem mentions_append_right (m t v : String) (h : mentions m v) : mentions (m ++ t) v := by
  obtain ⟨pre, post, hd⟩ := h
  exact ⟨pre, post ++ t.data, by simp [String.data_append, hd]⟩

theorem mentions_head (h tail v : String) (pre post : List Char)
    (hd : h.data = pre ++ v.data ++ post) : mentions (h ++ tail) v :=
  ⟨pre, post ++ tail.data, by simp [String.data_append, hd]⟩

theorem except_cap {α : Type} (k : Nat) (s : String) (e : String) (v : α) :
    (if s.utf8ByteSize > k then Except.error e else Except.ok v).toOption =
      if s.utf8ByteSize ≤ k then some v else none := by
  by_cases h : s.utf8ByteSize ≤ k
  · rw [if_neg (by omega), if_pos h]; rfl
  · rw [if_pos (by omega), if_neg h]; rfl

theorem except_guard {α : Type} (b : Bool) (e : String) (v : α) :
    (if !b then Except.error e else Except.ok v).toOption = if b then some v else none := by
  cases b <;> rfl

theorem ubt_foldl_children
    (l : List PaymentMethodUniversalBankTransactionBeneficiaryAccount) (e : XmlElement) :
    l.foldl
      (fun (x : XmlElement) (account : PaymentMethodUniversalBankTransactionBeneficiaryAccount) =>
        x.with_element account.to_xml) e =
      { e with children := e.children ++
          joinParts (l.map PaymentMethodUniversalBankTransactionBeneficiaryAccount.to_xml) } := by
  induction l generalizing e with
  | nil => simp [joinParts]
  | cons a rest ih =>
    rw [List.foldl_cons, ih]
    simp [XmlElement.with_element, joinParts, String.append_assoc]

theorem sepa_to_xml_shape (d : PaymentMethodSEPADirectDebit) :
    d.to_xml = "<SEPADirectDebit>" ++ textElement "Type" (d.direct_debit_type.getD "B2C") ++
      optTextElement "BIC" d.bic ++ optTextElement "IBAN" d.iban ++
      optTextElement "BankAccountOwner" d.bank_account_owner ++
      optTextElement "CreditorID" d.creditor_id ++
      optTextElement "MandateReference" d.mandate_reference ++
      optTextElement "DebitCollectionDate" d.debit_collection_date ++
      "</SEPADirectDebit>" := by
  obtain ⟨t, b, i, o, c, m, dd⟩ := d
  apply String.ext
  cases b <;> cases i <;> cases o <;> cases c <;> cases m <;> cases dd <;>
    simp [PaymentMethodSEPADirectDebit.to_xml, XmlElement.new, XmlElement.with_text,
      XmlElement.with_text_element, XmlElement.with_element, XmlElement.to_xml,
      textElement, optTextElement, String.data_append]

theorem ba_to_xml_shape (b : PaymentMethodUniversalBankTransactionBeneficiaryAccount) :
    b.to_xml = "<BeneficiaryAccount>" ++ optTextElement "BankName" b.bank_name ++
      bankCodeFragment b.bank_code ++ optTextElement "BIC" b.bic ++
      optTextElement "BankAccountNr" b.bank_account_number ++
      optTextElement "IBAN" b.iban ++
      optTextElement "BankAccountOwner" b.bank_account_owner ++
      "</BeneficiaryAccount>" := by
  obtain ⟨bn, bc, bi, num, i, o⟩ := b
  apply String.ext
  cases bn <;> cases bc <;> cases bi <;> cases num <;> cases i <;> cases o <;>
    simp [PaymentMethodUniversalBankTransactionBeneficiaryAccount.to_xml, XmlElement.new,
      XmlElement.with_text, XmlElement.with_attr, XmlElement.with_text_element,
      XmlElement.with_element, XmlElement.to_xml, textElement, optTextElement,
      bankCodeFragment, String.data_append]

theorem ubt_to_xml_shape (u : PaymentMethodUniversalBankTransaction) :
    u.to_xml = "<UniversalBankTransaction ConsolidatorPayable=\x22" ++
      toString (u.consolidator_payable.getD false) ++ "\x22>" ++
      joinParts ((u.beneficiary_account.getD []).map
        PaymentMethodUniversalBankTransactionBeneficiaryAccount.to_xml) ++
      paymentReferenceFragment u.payment_reference u.payment_reference_checksum ++
      "</UniversalBankTransaction>" := by
  obtain ⟨cp, accs, pr, cs⟩ := u
  apply String.ext
  cases accs <;> cases pr <;> cases cs <;>
    (simp only [PaymentMethodUniversalBankTransaction.to_xml, ubt_foldl_children]
     simp [XmlElement.new, XmlElement.with_text, XmlElement.with_attr,
       XmlElement.with_text_element, XmlElement.with_element, XmlElement.to_xml,
       paymentReferenceFragment, joinParts, String.data_append])

theorem card_to_xml_shape (pc : PaymentMethodPaymentCard) :
    pc.to_xml = "<PaymentCard>" ++
      textElement "PrimaryAccountNumber" pc.primary_account_number ++
      optTextElement "CardHolderName" pc.card_holder_name ++ "</PaymentCard>" := by
  obtain ⟨pan, chn⟩ := pc
  apply String.ext
  cases chn <;>
    simp [PaymentMethodPaymentCard.to_xml, XmlElement.new, XmlElement.with_text,
      XmlElement.with_text_element, XmlElement.with_element, XmlElement.to_xml,
      textElement, optTextElement, String.data_append]

theorem pm_to_xml_shape (p : PaymentMethod) :
    p.to_xml = "<PaymentMethod>" ++ optTextElement "Comment" p.comment ++
      p.method.to_xml ++ "</PaymentMethod>" := by
  obtain ⟨c, m⟩ := p
  apply String.ext
  cases c <;>
    simp [PaymentMethod.to_xml, XmlElement.new, XmlElement.with_text,
      XmlElement.with_text_element, XmlElement.with_element, XmlElement.to_xml,
      textElement, optTextElement, String.data_append]

theorem char_val_toBitVec_toNat (c : Char) : c.val.toBitVec.toNat = c.val.toNat := rfl

theorem isAlphanum_iff (c : Char) : c.isAlphanum = true ↔
    (48 ≤ c.toNat ∧ c.toNat ≤ 57) ∨ (65 ≤ c.toNat ∧ c.toNat ≤ 90) ∨
      (97 ≤ c.toNat ∧ c.toNat ≤ 122) := by
  simp only [Char.isAlphanum, Char.isAlpha, Char.isDigit, Char.isUpper, Char.isLower,
    Bool.or_eq_true, Bool.and_eq_true, decide_eq_true_eq, ge_iff_le, Char.toNat,
    UInt32.le_def, BitVec.le_def, char_val_toBitVec_toNat]
  norm_num
  tauto

theorem except_ne {α : Type} (m k : Nat) (e : String) (v : α) :
    (if m ≠ k then Except.error e else Except.ok v).toOption =
      if m = k then some v else none := by
  by_cases h : m = k
  · rw [if_neg (by simp [h]), if_pos h]; rfl
  · rw [if_pos h, if_neg h]; rfl

/-! The claims. -/

/-- C1, counterexample: the claim says the length caps are measured in
characters, but the code compares `str::len()`, the UTF-8 byte count.  A
string of 18 copies of the two-byte character 'é' has 18 characters,
within the 34-character IBAN cap, yet `with_iban` rejects it (36 bytes). -/
theorem c1_cap_counterexample :
    (PaymentMethodSEPADirectDebit.new.with_iban "éééééééééééééééééé").toOption = none ∧
      ("éééééééééééééééééé" : String).length ≤ 34 := by
  exact ⟨rfl, by decide⟩

/-- C1 (amended): each length-capped setter fails exactly when the UTF-8
byte length (`str::len()`) of the input exceeds the cap (IBAN 34,
bank_account_owner 70, creditor_id 35, mandate_reference 35, bank_name
255, payment_reference 35) — bytes, not characters — and on success the
stored value is the input unchanged, all other fields untouched. -/
theorem c1_length_caps (d : PaymentMethodSEPADirectDebit)
    (b : PaymentMethodUniversalBankTransactionBeneficiaryAccount)
    (u : PaymentMethodUniversalBankTransaction) (s : String) :
    ((d.with_iban s).toOption =
      if s.utf8ByteSize ≤ 34 then some { d with iban := some s } else none) ∧
    ((d.with_bank_account_owner s).toOption =
      if s.utf8ByteSize ≤ 70 then some { d with bank_account_owner := some s } else none) ∧
    ((d.with_creditor_id s).toOption =
      if s.utf8ByteSize ≤ 35 then some { d with creditor_id := some s } else none) ∧
    ((d.with_mandate_reference s).toOption =
      if s.utf8ByteSize ≤ 35 then some { d with mandate_reference := some s } else none) ∧
    ((b.with_bank_name s).toOption =
      if s.utf8ByteSize ≤ 255 then some { b with bank_name := some s } else none) ∧
    ((b.with_iban s).toOption =
      if s.utf8ByteSize ≤ 34 then some { b with iban := some s } else none) ∧
    ((b.with_bank_account_owner s).toOption =
      if s.utf8ByteSize ≤ 70 then some { b with bank_account_owner := some s } else none) ∧
    ((u.with_payment_reference s).toOption =
      if s.utf8ByteSize ≤ 35 then some { u with payment_reference := some s } else none) :=
  ⟨except_cap 34 s _ _, except_cap 70 s _ _, except_cap 35 s _ _, except_cap 35 s _ _,
   except_cap 255 s _ _, except_cap 34 s _ _, except_cap 70 s _ _, except_cap 35 s _ _⟩

/-- C2: rendering a `PaymentMethodUniversalBankTransaction` yields the
`UniversalBankTransaction` element whose `ConsolidatorPayable` attribute
is always present and is exactly "true" or "false" ("false" when never
set), followed by the beneficiary accounts in insertion order
(`with_beneficiary_account` appends, and a fold of such calls renders in
call order), followed by `paymentReferenceFragment`, which renders a
`PaymentReference` text element iff `payment_reference` is set, carrying
a `CheckSum` attribute iff a checksum is set — and renders nothing at
all (checksum included) when `payment_reference` is unset. -/
theorem c2_universal_bank_transaction_rendering
    (u : PaymentMethodUniversalBankTransaction)
    (a : PaymentMethodUniversalBankTransactionBeneficiaryAccount)
    (accs : List PaymentMethodUniversalBankTransactionBeneficiaryAccount) :
    (u.to_xml = "<UniversalBankTransaction ConsolidatorPayable=\x22" ++
      (if u.consolidator_payable.getD false then "true" else "false") ++ "\x22>" ++
      joinParts ((u.beneficiary_account.getD []).map
        PaymentMethodUniversalBankTransactionBeneficiaryAccount.to_xml) ++
      paymentReferenceFragment u.payment_reference u.payment_reference_checksum ++
      "</UniversalBankTransaction>") ∧
    ((u.with_beneficiary_account a).beneficiary_account =
      some (u.beneficiary_account.getD [] ++ [a])) ∧
    ((accs.foldl PaymentMethodUniversalBankTransaction.with_beneficiary_account
        u).beneficiary_account.getD [] = u.beneficiary_account.getD [] ++ accs) ∧
    paymentReferenceFragment none u.payment_reference_checksum = "" := by
  refine ⟨?_, rfl, ?_, rfl⟩
  · rw [ubt_to_xml_shape]
    cases hb : u.consolidator_payable.getD false <;> rfl
  · induction accs generalizing u with
    | nil => simp
    | cons x rest ih =>
      rw [List.foldl_cons, ih]
      simp [PaymentMethodUniversalBankTransaction.with_beneficiary_account]

/-- C3: rendering a `PaymentMethodSEPADirectDebit` yields `SEPADirectDebit`
with children in exactly the order Type, BIC, IBAN, BankAccountOwner,
CreditorID, MandateReference, DebitCollectionDate; the Type text element
is always emitted (the set value, or "B2C" when unset), every other child
is present exactly when its field is set (`optTextElement` of `none` is
the empty string — no placeholder element). -/
theorem c3_sepa_direct_debit_rendering (d : PaymentMethodSEPADirectDebit)
    (tag v : String) :
    (d.to_xml = "<SEPADirectDebit>" ++
      textElement "Type" (d.direct_debit_type.getD "B2C") ++
      optTextElement "BIC" d.bic ++ optTextElement "IBAN" d.iban ++
      optTextElement "BankAccountOwner" d.bank_account_owner ++
      optTextElement "CreditorID" d.creditor_id ++
      optTextElement "MandateReference" d.mandate_reference ++
      optTextElement "DebitCollectionDate" d.debit_collection_date ++
      "</SEPADirectDebit>") ∧
    optTextElement tag none = "" ∧
    optTextElement tag (some v) = "<" ++ tag ++ ">" ++ v ++ "</" ++ tag ++ ">" ∧
    textElement "Type" ((none : Option String).getD "B2C") = "<Type>B2C</Type>" :=
  ⟨sepa_to_xml_shape d, rfl, rfl, rfl⟩

/-- C5: both `with_bic` setters succeed exactly when the shared predicate
`match_bic_regex` holds, which holds exactly when the string is 8 or 11
characters, all in the class `[0-9A-Za-z]`; a 7-character string and a
string with a symbol fail, 8- and 11-character alphanumeric strings
succeed; on success the stored value is the input unchanged. -/
theorem c5_bic_setters (d : PaymentMethodSEPADirectDebit)
    (b : PaymentMethodUniversalBankTransactionBeneficiaryAccount) (s : String) :
    ((d.with_bic s).toOption =
      if match_bic_regex s then some { d with bic := some s } else none) ∧
    ((b.with_bic s).toOption =
      if match_bic_regex s then some { b with bic := some s } else none) ∧
    (match_bic_regex s = true ↔ bicShapeSpec s) ∧
    match_bic_regex "BKAUATW" = false ∧
    match_bic_regex "BKAUATW!" = false ∧
    match_bic_regex "BKAUATWW" = true ∧
    match_bic_regex "BKAUATWWXXX" = true := by
  refine ⟨except_guard _ _ _, except_guard _ _ _, ?_, rfl, rfl, rfl, rfl⟩
  unfold match_bic_regex bicShapeSpec
  simp only [Bool.and_eq_true, Bool.or_eq_true, beq_iff_eq, List.all_eq_true,
    isAlphanum_iff]

/-- C7, counterexample: the claim says `with_bank_code` succeeds exactly
when `bank_code_type` is exactly 2 characters; the code compares
`str::len()`, the UTF-8 byte count.  The 1-character string "é" (2 bytes)
is accepted, and the 2-character string "aé" (3 bytes) is rejected. -/
theorem c7_bank_code_counterexample :
    ((PaymentMethodUniversalBankTransactionBeneficiaryAccount.new.with_bank_code
        ⟨12000, "é"⟩).toOption.isSome = true ∧ ("é" : String).length ≠ 2) ∧
    ((PaymentMethodUniversalBankTransactionBeneficiaryAccount.new.with_bank_code
        ⟨12000, "aé"⟩).toOption.isSome = false ∧ ("aé" : String).length = 2) :=
  ⟨⟨rfl, by decide⟩, ⟨rfl, by decide⟩⟩

/-- C7 (amended): `with_bank_code` succeeds exactly when the
`bank_code_type` string is exactly 2 bytes long in UTF-8 (`str::len()`),
not 2 characters; on success the bank code record is stored unchanged. -/
theorem c7_bank_code_length
    (b : PaymentMethodUniversalBankTransactionBeneficiaryAccount)
    (bc : PaymentMethodUniversalBankTransactionBeneficiaryAccountBankCode) :
    (b.with_bank_code bc).toOption =
      if bc.bank_code_type.utf8ByteSize = 2 then some { b with bank_code := some bc }
      else none :=
  except_ne _ 2 _ _

/-- C9: a default-constructed `PaymentMethod` and one built by
`no_payment` render exactly
`<PaymentMethod><NoPayment></NoPayment></PaymentMethod>`; with a comment
set, a `Comment` text element is rendered first inside `PaymentMethod`,
followed by the active variant's rendering. -/
theorem c9_payment_method_rendering (p : PaymentMethod) (c : String) :
    PaymentMethod.default.to_xml =
      "<PaymentMethod><NoPayment></NoPayment></PaymentMethod>" ∧
    PaymentMethod.no_payment.to_xml =
      "<PaymentMethod><NoPayment></NoPayment></PaymentMethod>" ∧
    (p.with_comment c).to_xml = "<PaymentMethod>" ++ textElement "Comment" c ++
      p.method.to_xml ++ "</PaymentMethod>" := by
  refine ⟨rfl, rfl, ?_⟩
  rw [pm_to_xml_shape]
  simp [PaymentMethod.with_comment, optTextElement]

theorem all_takeWhile {α : Type} (p : α → Bool) (l : List α) :
    (l.takeWhile p).all p = true := by
  induction l with
  | nil => rfl
  | cons a t ih => cases hp : p a <;> simp [List.takeWhile_cons, hp, ih]

theorem takeWhile_append_all {α : Type} (p : α → Bool) (a : List α) (c : α) (b : List α)
    (ha : a.all p = true) (hc : p c = false) :
    (a ++ c :: b).takeWhile p = a ∧ (a ++ c :: b).dropWhile p = c :: b := by
  induction a with
  | nil => simp [List.takeWhile_cons, List.dropWhile_cons, hc]
  | cons x t ih =>
    simp only [List.all_cons, Bool.and_eq_true] at ha
    simp [List.takeWhile_cons, List.dropWhile_cons, ha.1, ih ha.2]

theorem cap_contract {α : Type} (k : Nat) (head s tail : String) (v : α)
    (good : α → Prop) (hg : good v) (fname : String) (pre post : List Char)
    (hd : head.data = pre ++ fname.data ++ post) :
    setterContract
      (if s.utf8ByteSize > k then Except.error (head ++ s ++ tail) else Except.ok v)
      fname s good := by
  by_cases hk : s.utf8ByteSize > k
  · rw [if_pos hk]
    exact ⟨mentions_append_right _ _ _ (mentions_head head s fname pre post hd),
      mentions_concat head s tail⟩
  · rw [if_neg hk]
    exact hg

theorem guard_contract {α : Type} (b : Bool) (head s t1 t2 t3 : String) (v : α)
    (good : α → Prop) (hg : good v) (fname : String) (pre post : List Char)
    (hd : head.data = pre ++ fname.data ++ post) :
    setterContract
      (if !b then Except.error (head ++ s ++ t1 ++ t2 ++ t3) else Except.ok v)
      fname s good := by
  cases b
  · exact ⟨mentions_append_right _ _ _ (mentions_append_right _ _ _
      (mentions_append_right _ _ _ (mentions_head head s fname pre post hd))),
      mentions_append_right _ _ _ (mentions_append_right _ _ _ (mentions_concat head s t1))⟩
  · exact hg

theorem guard_contract3 {α : Type} (b : Bool) (head s t1 : String) (v : α)
    (good : α → Prop) (hg : good v) (fname : String) (pre post : List Char)
    (hd : head.data = pre ++ fname.data ++ post) :
    setterContract (if !b then Except.error (head ++ s ++ t1) else Except.ok v)
      fname s good := by
  cases b
  · exact ⟨mentions_append_right _ _ _ (mentions_head head s fname pre post hd),
      mentions_concat head s t1⟩
  · exact hg

theorem ne_contract {α : Type} (m k : Nat) (head s tail : String) (v : α)
    (good : α → Prop) (hg : good v) (fname : String) (pre post : List Char)
    (hd : head.data = pre ++ fname.data ++ post) :
    setterContract (if m ≠ k then Except.error (head ++ s ++ tail) else Except.ok v)
      fname s good := by
  by_cases hk : m = k
  · rw [if_neg (by simp [hk])]
    exact hg
  · rw [if_pos hk]
    exact ⟨mentions_append_right _ _ _ (mentions_head head s fname pre post hd),
      mentions_concat head s tail⟩

/-- C4: `PaymentMethodPaymentCard::new` succeeds exactly when the input
matches the masked-PAN shape (0 to 6 digits, one literal asterisk, 0 to 4
digits), with "123456*4321" and "*" accepted, "1234567*4321" and
"123456*43210" rejected; on success the stored primary account number is
the input unchanged (and no card holder name is set). -/
theorem c4_payment_card_new (s : String) :
    ((PaymentMethodPaymentCard.new s).toOption =
      if match_payment_card_regex s then some ⟨s, none⟩ else none) ∧
    (match_payment_card_regex s = true ↔ panShapeSpec s) ∧
    (PaymentMethodPaymentCard.new "123456*4321").toOption =
      some ⟨"123456*4321", none⟩ ∧
    (PaymentMethodPaymentCard.new "*").toOption = some ⟨"*", none⟩ ∧
    (PaymentMethodPaymentCard.new "1234567*4321").toOption = none ∧
    (PaymentMethodPaymentCard.new "123456*43210").toOption = none := by
  refine ⟨except_guard _ _ _, ?_, rfl, rfl, rfl, rfl⟩
  constructor
  · intro h
    unfold match_payment_card_regex at h
    rcases hdrop : s.data.dropWhile Char.isDigit with _ | ⟨star, post⟩
    · rw [hdrop] at h
      exact absurd h (by simp)
    · rw [hdrop] at h
      simp only [Bool.and_eq_true, beq_iff_eq, decide_eq_true_eq] at h
      obtain ⟨⟨⟨hstar, hpre⟩, hpost⟩, hdig⟩ := h
      subst hstar
      refine ⟨s.data.takeWhile Char.isDigit, post, ?_, hpre, hpost, all_takeWhile _ _, hdig⟩
      conv_lhs => rw [← List.takeWhile_append_dropWhile (p := Char.isDigit) (l := s.data)]
      rw [hdrop]
  · rintro ⟨a, b, hdata, ha6, hb4, haDig, hbDig⟩
    unfold match_payment_card_regex
    rw [hdata]
    obtain ⟨ht, hd⟩ := takeWhile_append_all Char.isDigit a '*' b haDig (by decide)
    rw [ht, hd]
    simp [ha6, hb4, hbDig]

/-- C6: `with_debit_collection_date` succeeds exactly when the input
lexically matches four digits, hyphen, two digits, hyphen, two digits;
there is no calendar check, so the calendar-invalid "2020-13-99" is
accepted and stored unchanged. -/
theorem c6_debit_collection_date (d : PaymentMethodSEPADirectDebit) (s : String) :
    ((d.with_debit_collection_date s).toOption =
      if match_date_regex s then some { d with debit_collection_date := some s }
      else none) ∧
    (match_date_regex s = true ↔ dateShapeSpec s) ∧
    match_date_regex "2020-13-99" = true ∧
    (d.with_debit_collection_date "2020-13-99").toOption =
      some { d with debit_collection_date := some "2020-13-99" } := by
  refine ⟨except_guard _ _ _, ?_, rfl, rfl⟩
  constructor
  · intro h
    unfold match_date_regex at h
    split at h
    · rename_i y1 y2 y3 y4 h1 m1 m2 h2 dd1 dd2 heq
      simp only [Bool.and_eq_true, beq_iff_eq] at h
      obtain ⟨⟨⟨⟨⟨⟨⟨⟨⟨hy1, hy2⟩, hy3⟩, hy4⟩, hh1⟩, hm1⟩, hm2⟩, hh2⟩, hd1⟩, hd2⟩ := h
      subst hh1
      subst hh2
      exact ⟨y1, y2, y3, y4, m1, m2, dd1, dd2, heq,
        by simp [hy1, hy2, hy3, hy4, hm1, hm2, hd1, hd2]⟩
    · exact absurd h (by simp)
  · rintro ⟨y1, y2, y3, y4, m1, m2, dd1, dd2, hdata, hall⟩
    unfold match_date_regex
    rw [hdata]
    simp only [List.all_cons, List.all_nil, Bool.and_eq_true, and_true] at hall
    obtain ⟨h1, h2, h3, h4, h5, h6, h7, h8⟩ := hall
    simp [h1, h2, h3, h4, h5, h6, h7, h8]

/-- C8: every fallible setter and constructor, on failure, returns an
error whose message contains the field's name and the rejected value both
verbatim, and produces no record at all (the `Except.error` case carries
only the message); on success the result is the input record with exactly
the one field set — there is no partial-success mode. -/
theorem c8_validation_errors (d : PaymentMethodSEPADirectDebit)
    (b : PaymentMethodUniversalBankTransactionBeneficiaryAccount)
    (u : PaymentMethodUniversalBankTransaction)
    (bc : PaymentMethodUniversalBankTransactionBeneficiaryAccountBankCode)
    (s : String) :
    setterContract (d.with_bic s) "BIC" s
      (fun r => r = { d with bic := some s }) ∧
    setterContract (d.with_iban s) "IBAN" s
      (fun r => r = { d with iban := some s }) ∧
    setterContract (d.with_bank_account_owner s) "BankAccountOwner" s
      (fun r => r = { d with bank_account_owner := some s }) ∧
    setterContract (d.with_creditor_id s) "CreditorID" s
      (fun r => r = { d with creditor_id := some s }) ∧
    setterContract (d.with_mandate_reference s) "MandateReference" s
      (fun r => r = { d with mandate_reference := some s }) ∧
    setterContract (d.with_debit_collection_date s) "DebitCollectionDate" s
      (fun r => r = { d with debit_collection_date := some s }) ∧
    setterContract (b.with_bank_name s) "BankName" s
      (fun r => r = { b with bank_name := some s }) ∧
    setterContract (b.with_bank_code bc) "BankCodeType" bc.bank_code_type
      (fun r => r = { b with bank_code := some bc }) ∧
    setterContract (b.with_bic s) "BIC" s
      (fun r => r = { b with bic := some s }) ∧
    setterContract (b.with_iban s) "IBAN" s
      (fun r => r = { b with iban := some s }) ∧
    setterContract (b.with_bank_account_owner s) "BankAccountOwner" s
      (fun r => r = { b with bank_account_owner := some s }) ∧
    setterContract (u.with_payment_reference s) "PaymentReference" s
      (fun r => r = { u with payment_reference := some s }) ∧
    setterContract (PaymentMethodPaymentCard.new s) "primary account number" s
      (fun r => r = ⟨s, none⟩) := by
  refine ⟨?_, ?_, ?_, ?_, ?_, ?_, ?_, ?_, ?_, ?_, ?_, ?_, ?_⟩
  · exact guard_contract _ "BIC " s " doesn\x27t match regex " BIC_REGEX_STR "!" _ (fun r => r = _) rfl
      "BIC" [] [' '] (by decide)
  · exact cap_contract 34 "IBAN " s " is too long!" _ (fun r => r = _) rfl "IBAN" [] [' '] (by decide)
  · exact cap_contract 70 "BankAccountOwner " s " is too long!" _ (fun r => r = _) rfl
      "BankAccountOwner" [] [' '] (by decide)
  · exact cap_contract 35 "CreditorID " s " is too long!" _ (fun r => r = _) rfl "CreditorID" [] [' ']
      (by decide)
  · exact cap_contract 35 "MandateReference " s " is too long!" _ (fun r => r = _) rfl
      "MandateReference" [] [' '] (by decide)
  · exact guard_contract _ "DebitCollectionDate " s " doesn\x27t match regex "
      DATE_REGEX_STR "!" _ (fun r => r = _) rfl "DebitCollectionDate" [] [' '] (by decide)
  · exact cap_contract 255 "BankName " s " is too long!" _ (fun r => r = _) rfl "BankName" [] [' ']
      (by decide)
  · exact ne_contract _ 2 "BankCodeType " bc.bank_code_type
      " is not 2 characters long!" _ (fun r => r = _) rfl "BankCodeType" [] [' '] (by decide)
  · exact guard_contract _ "BIC " s " doesn\x27t match regex " BIC_REGEX_STR "!" _ (fun r => r = _) rfl
      "BIC" [] [' '] (by decide)
  · exact cap_contract 34 "IBAN " s " is too long!" _ (fun r => r = _) rfl "IBAN" [] [' '] (by decide)
  · exact cap_contract 70 "BankAccountOwner " s " is too long!" _ (fun r => r = _) rfl
      "BankAccountOwner" [] [' '] (by decide)
  · exact cap_contract 35 "PaymentReference " s " is too long!" _ (fun r => r = _) rfl
      "PaymentReference" [] [' '] (by decide)
  · exact guard_contract3 _ "Invalid primary account number \x22" s
      "\x22. Only provide at most the first 6 and last 4 digits, separated with a \x22*\x22."
      _ (fun r => r = _) rfl "primary account number" "Invalid ".data [' ', '\x22'] (by decide)

/-- C10, counterexample: the claim says the stored value of every
infallible setter is rendered verbatim, but a checksum stored by
`with_payment_reference_checksum` is not rendered at all when no payment
reference is set: on a fresh transaction with checksum "X", the stored
checksum is `some "X"` yet "X" does not occur in the rendered output. -/
theorem c10_checksum_counterexample :
    (PaymentMethodUniversalBankTransaction.new.with_payment_reference_checksum
      "X").payment_reference_checksum = some "X" ∧
    ¬ mentions (PaymentMethodUniversalBankTransaction.new.with_payment_reference_checksum
      "X").to_xml "X" := by
  refine ⟨rfl, ?_⟩
  have hout : (PaymentMethodUniversalBankTransaction.new.with_payment_reference_checksum
      "X").to_xml =
      "<UniversalBankTransaction ConsolidatorPayable=\x22false\x22></UniversalBankTransaction>" :=
    rfl
  rw [hout]
  rintro ⟨pre, post, h⟩
  have hx : 'X' ∈ ("<UniversalBankTransaction ConsolidatorPayable=\x22false\x22></UniversalBankTransaction>" : String).data := by
    rw [h]
    simp
  exact absurd hx (by decide)

/-- C10 (amended): `with_direct_debit_type`, `with_bank_account_number`,
`with_payment_reference_checksum`, `with_card_holder_name` and
`with_comment` are infallible for every input string (no validation, any
length, `direct_debit_type` not restricted to "B2B"/"B2C"); each stores
its input unchanged, and the stored value is rendered verbatim — except
the payment-reference checksum, which is rendered (verbatim, as the
`CheckSum` attribute) only when a payment reference is set; with no
payment reference set, storing a checksum leaves the rendered output
completely unchanged. -/
theorem c10_infallible_setters (d : PaymentMethodSEPADirectDebit)
    (b : PaymentMethodUniversalBankTransactionBeneficiaryAccount)
    (u : PaymentMethodUniversalBankTransaction) (pc : PaymentMethodPaymentCard)
    (p : PaymentMethod) (v : String) :
    (d.with_direct_debit_type v = { d with direct_debit_type := some v }) ∧
    mentions (d.with_direct_debit_type v).to_xml v ∧
    (b.with_bank_account_number v = { b with bank_account_number := some v }) ∧
    mentions (b.with_bank_account_number v).to_xml v ∧
    (u.with_payment_reference_checksum v =
      { u with payment_reference_checksum := some v }) ∧
    (match u.payment_reference with
     | some _ => mentions (u.with_payment_reference_checksum v).to_xml v
     | none => (u.with_payment_reference_checksum v).to_xml = u.to_xml) ∧
    (pc.with_card_holder_name v = { pc with card_holder_name := some v }) ∧
    mentions (pc.with_card_holder_name v).to_xml v ∧
    (p.with_comment v = { p with comment := some v }) ∧
    mentions (p.with_comment v).to_xml v := by
  refine ⟨rfl, ?_, rfl, ?_, rfl, ?_, rfl, ?_, rfl, ?_⟩
  · rw [sepa_to_xml_shape]
    simp only [PaymentMethodSEPADirectDebit.with_direct_debit_type, Option.getD_some,
      textElement]
    apply mentions_append_right
    apply mentions_append_right
    apply mentions_append_right
    apply mentions_append_right
    apply mentions_append_right
    apply mentions_append_right
    apply mentions_append_right
    apply mentions_append_left
    apply mentions_append_right
    apply mentions_append_right
    apply mentions_append_right
    apply mentions_append_left
    exact mentions_refl v
  · rw [ba_to_xml_shape]
    simp only [PaymentMethodUniversalBankTransactionBeneficiaryAccount.with_bank_account_number,
      optTextElement, textElement]
    apply mentions_append_right
    apply mentions_append_right
    apply mentions_append_right
    apply mentions_append_left
    apply mentions_append_right
    apply mentions_append_right
    apply mentions_append_right
    apply mentions_append_left
    exact mentions_refl v
  · rcases hpr : u.payment_reference with _ | r
    · rw [ubt_to_xml_shape, ubt_to_xml_shape]
      simp [PaymentMethodUniversalBankTransaction.with_payment_reference_checksum, hpr,
        paymentReferenceFragment]
    · rw [ubt_to_xml_shape]
      simp only [PaymentMethodUniversalBankTransaction.with_payment_reference_checksum,
        hpr, paymentReferenceFragment]
      apply mentions_append_right
      apply mentions_append_left
      apply mentions_append_right
      apply mentions_append_right
      apply mentions_append_right
      apply mentions_append_left
      apply mentions_append_right
      apply mentions_append_left
      exact mentions_refl v
  · rw [card_to_xml_shape]
    simp only [PaymentMethodPaymentCard.with_card_holder_name, optTextElement,
      textElement]
    apply mentions_append_right
    apply mentions_append_left
    apply mentions_append_right
    apply mentions_append_right
    apply mentions_append_right
    apply mentions_append_left
    exact mentions_refl v
  · rw [pm_to_xml_shape]
    simp only [PaymentMethod.with_comment, optTextElement, textElement]
    apply mentions_append_right
    apply mentions_append_right
    apply mentions_append_left
    apply mentions_append_right
    apply mentions_append_right
    apply mentions_append_right
    apply mentions_append_left
    exact mentions_refl v
